import Mathlib

set_option maxRecDepth 4000

/-!
Verification development for the `linkcheck` repository.

Shallow embedding of:
* `CheckerPool` (instance pool: acquire / release / failure tracking / recovery),
  from `src/web-server.js`;
* `RateLimiter` (per-client sliding window) and the status-endpoint handling,
  from `src/web-server.js` and `src/web-server-native.js`;
* `sanitizeUrl` / `cleanUrl` URL normalization and the streaming-endpoint gates;
* the two Discord reply observers (`waitForBotReply` and the `readBot` helper of
  `sendAndStreamReply`), from `src/discord-automation.js`;
* the streaming stability loop of `sendAndStreamReply` and the `looksComplete`
  predicate of the legacy `/api/check-stream` handler;
* `parseBotResponse`, from `src/response-parser.js`, including a small
  backtracking regular-expression engine mirroring the JavaScript regexes.

Machine integers do not overflow in any modelled code path, so counters are
`Nat` and timestamps are `Int`.
-/

/- ===================================================================
   Part 1: the instance pool (`class CheckerPool` in src/web-server.js)
   =================================================================== -/

/-- One pool entry, as built by `CheckerPool.addInstance`: the fields of the
object literal `{ id, config, checker, busy, ready, error, consecutiveFailures }`.
The `config`/`checker` handles carry no pool-relevant state and are omitted;
`error` keeps only whether a message is recorded (abstracted to a tag). -/
structure PoolInst where
  id : Nat
  busy : Bool
  ready : Bool
  error : Option Nat
  consecutiveFailures : Nat
deriving DecidableEq

/-- The pool state: the ordered instance list, the FIFO waiter queue
(`_waiters`, waiters abstracted to tags), and the `_recovering` id set. -/
structure CheckerPool where
  instances : List PoolInst
  waiters : List Nat
  recovering : List Nat
deriving DecidableEq

/-- Update the first instance with the given id (JS `find` + in-place mutation). -/
def updateFirstInst : List PoolInst → Nat → (PoolInst → PoolInst) → List PoolInst
  | [], _, _ => []
  | i :: rest, iid, f =>
    if i.id = iid then f i :: rest else i :: updateFirstInst rest iid f

/-- `get size()` -/
def CheckerPool.size (p : CheckerPool) : Nat := p.instances.length

/-- `get allBusy()` — `this._instances.filter(i => i.ready).every(i => i.busy)`. -/
def CheckerPool.allBusy (p : CheckerPool) : Bool :=
  (p.instances.filter (fun i => i.ready)).all (fun i => i.busy)

/-- `get pending()` -/
def CheckerPool.pending (p : CheckerPool) : Nat := p.waiters.length

/-- `get anyReady()` — `some(i => i.ready && !i.busy)`. -/
def CheckerPool.anyReadyIdle (p : CheckerPool) : Bool :=
  p.instances.any (fun i => i.ready && !i.busy)

/-- The `busy` field of the legacy `GET /api/status` response is `pool.allBusy`. -/
def legacyStatusBusy (p : CheckerPool) : Bool := p.allBusy

/-- Helper for `acquire`: find the first `ready && !busy` instance and mark it
busy, returning its id (JS `find` then `free.busy = true`). -/
def markFirstFree : List PoolInst → List PoolInst × Option Nat
  | [] => ([], none)
  | i :: rest =>
    if i.ready && !i.busy then ({ i with busy := true } :: rest, some i.id)
    else
      let r := markFirstFree rest
      (i :: r.1, r.2)

/-- `acquire(onPositionChange)`: an idle ready instance is marked busy and
handed out at once; otherwise the caller (tag `w`) is appended to the FIFO
waiter queue.  Returns the acquired instance id, or `none` when queued. -/
def CheckerPool.acquire (p : CheckerPool) (w : Nat) : CheckerPool × Option Nat :=
  match markFirstFree p.instances with
  | (insts, some iid) => ({ p with instances := insts }, some iid)
  | (_, none) => ({ p with waiters := p.waiters ++ [w] }, none)

/-- `_releaseInstance(inst)`: with waiters queued, the head waiter is popped and
resolved with the same instance (the instance list — in particular the `busy`
flag — is untouched); with no waiters, `inst.busy = false`.  Returns the waiter
tag that received the slot, if any. -/
def CheckerPool.releaseInstance (p : CheckerPool) (iid : Nat) : CheckerPool × Option Nat :=
  match p.waiters with
  | w :: rest => ({ p with waiters := rest }, some w)
  | [] =>
    ({ p with instances := updateFirstInst p.instances iid (fun i => { i with busy := false }) },
     none)

/-- `recordSuccess(id)`: reset the failure counter to 0. -/
def CheckerPool.recordSuccess (p : CheckerPool) (iid : Nat) : CheckerPool :=
  { p with instances := (updateFirstInst p.instances iid
      (fun i => { i with consecutiveFailures := 0 })) }

/-- The synchronous head of `recoverInstance(id)` (everything before the first
`await`): the `!inst || this._recovering.has(id)` guard, then
`this._recovering.add(id)` and `inst.ready = false`.  Returns whether the
recovery actually started. -/
def CheckerPool.recoverStart (p : CheckerPool) (iid : Nat) : CheckerPool × Bool :=
  match p.instances.find? (fun i => i.id = iid) with
  | none => (p, false)
  | some _ =>
    if iid ∈ p.recovering then (p, false)
    else
      ({ p with recovering := iid :: p.recovering,
                instances := (updateFirstInst p.instances iid
                  (fun i => { i with ready := false })) },
       true)

/-- The tail of `recoverInstance(id)`: on `init()` success the instance becomes
ready with a clean error and counter; on failure only the error is recorded;
either way the id leaves the recovering set. -/
def CheckerPool.recoverFinish (p : CheckerPool) (iid : Nat) (ok : Bool) : CheckerPool :=
  let p1 :=
    if ok then
      { p with instances := (updateFirstInst p.instances iid
          (fun i => { i with ready := true, error := none, consecutiveFailures := 0 })) }
    else
      { p with instances := (updateFirstInst p.instances iid
          (fun i => { i with error := some 1 })) }
  { p1 with recovering := p1.recovering.erase iid }

/-- `recordFailure(id)`: increment the counter; when the incremented counter is
`>= 3` and the id is not recovering, `recoverInstance(id)` is started (its own
guard passes again).  Returns whether recovery was started. -/
def CheckerPool.recordFailure (p : CheckerPool) (iid : Nat) : CheckerPool × Bool :=
  match p.instances.find? (fun i => i.id = iid) with
  | none => (p, false)
  | some inst =>
    if 3 ≤ inst.consecutiveFailures + 1 ∧ iid ∉ p.recovering then
      ((CheckerPool.recoverStart
          { p with instances := (updateFirstInst p.instances iid
              (fun i => { i with consecutiveFailures := i.consecutiveFailures + 1 })) } iid).1,
       true)
    else
      ({ p with instances := (updateFirstInst p.instances iid
          (fun i => { i with consecutiveFailures := i.consecutiveFailures + 1 })) },
       false)

/-- The `healthCheck()` per-instance eligibility filter: a probe (and hence a
probe-failure recovery) only reaches instances with
`inst.ready && !inst.busy && !this._recovering.has(inst.id)`. -/
def CheckerPool.healthCheckEligible (p : CheckerPool) (iid : Nat) : Bool :=
  match p.instances.find? (fun i => i.id = iid) with
  | none => false
  | some i => i.ready && !i.busy && !(p.recovering.contains iid)

/-- A failed health probe on an eligible instance starts `recoverInstance`. -/
def CheckerPool.healthCheckFail (p : CheckerPool) (iid : Nat) : CheckerPool × Bool :=
  if p.healthCheckEligible iid then p.recoverStart iid else (p, false)

/-- Pool events, one per externally triggerable pool operation.  `release`
followed by `failure` is exactly the `release(); pool.recordFailure(id);` pair
the request handlers run on a failed attempt. -/
inductive PoolEv where
  | acquire (w : Nat)
  | release (iid : Nat)
  | success (iid : Nat)
  | failure (iid : Nat)
  | recoverDone (iid : Nat) (ok : Bool)
  | probeFail (iid : Nat)
deriving DecidableEq

def CheckerPool.step (p : CheckerPool) : PoolEv → CheckerPool
  | .acquire w => (p.acquire w).1
  | .release iid => (p.releaseInstance iid).1
  | .success iid => p.recordSuccess iid
  | .failure iid => (p.recordFailure iid).1
  | .recoverDone iid ok => p.recoverFinish iid ok
  | .probeFail iid => (p.healthCheckFail iid).1

def CheckerPool.run (p : CheckerPool) (es : List PoolEv) : CheckerPool :=
  es.foldl CheckerPool.step p

/-- The pool state right after `addInstance(0, …)` and a successful `initAll()`
with `POOL_SIZE = 1` (the default): one ready idle instance, no waiters, no
recovery in flight. -/
def initPool1 : CheckerPool :=
  { instances := [{ id := 0, busy := false, ready := true, error := none,
                    consecutiveFailures := 0 }],
    waiters := [], recovering := [] }

/- ===================================================================
   Part 2: the rate limiter (per-client sliding window)
   =================================================================== -/

/-- The `{ allowed, remaining, retryAfterMs }` object returned by
`RateLimiter.check`. -/
structure RLResult where
  allowed : Bool
  remaining : Nat
  retryAfterMs : Int
deriving DecidableEq

/-- `RateLimiter.check(ip)` acting on one client's stored timestamp list
(`this._hits.get(ip)`), with `now` passed explicitly for `Date.now()`:
expired stamps are filtered out and stored back; at or above `maxHits`
in-window stamps the call is denied without recording a hit; otherwise `now`
is pushed.  Returns the new stored list and the result object.
(`timestamps[0]` is modelled as `headD 0`; in the denied branch the list is
nonempty whenever `maxHits > 0`, as in the deployed configurations.) -/
def RateLimiter.check (maxHits : Nat) (windowMs : Int) (hits : List Int) (now : Int) :
    List Int × RLResult :=
  let cutoff := now - windowMs
  let ts := hits.filter (fun t => cutoff < t)
  if maxHits ≤ ts.length then
    (ts, { allowed := false, remaining := 0, retryAfterMs := ts.headD 0 + windowMs - now })
  else
    (ts ++ [now], { allowed := true, remaining := maxHits - (ts.length + 1), retryAfterMs := 0 })

/-- `RateLimiter.undo(ip)` in src/web-server-native.js pops the last stored
timestamp; the legacy `GET /api/status` handler runs the same
`timestamps.pop()` inline. -/
def RateLimiter.undo (hits : List Int) : List Int := hits.dropLast

/-- Effect of one `GET /api/status` request on the caller's stored timestamp
list: `check` followed by the unconditional pop (both endpoints). -/
def statusHits (maxHits : Nat) (windowMs : Int) (hits : List Int) (now : Int) : List Int :=
  RateLimiter.undo (RateLimiter.check maxHits windowMs hits now).1

/- ===================================================================
   Part 3: URL normalization and the streaming-endpoint gates
   =================================================================== -/

/-- The whitespace class of JavaScript `trim` (ASCII whitespace and NBSP, the
characters that can occur in the modelled inputs). -/
def isJsSpace (c : Char) : Bool :=
  c = ' ' || c = '\t' || c = '\n' || c = '\r' ||
  c = Char.ofNat 11 || c = Char.ofNat 12 || c = Char.ofNat 160

/-- JavaScript `\w`: ASCII alphanumerics and underscore. -/
def isJsWordChar (c : Char) : Bool := c.isAlphanum || c = '_'

/-- JavaScript `String.prototype.trim`. -/
def trimChars (s : List Char) : List Char :=
  ((s.dropWhile isJsSpace).reverse.dropWhile isJsSpace).reverse

/-- `replace(/^https?:\/\//i, '')`: one anchored, case-insensitive scheme
match removed. -/
def stripScheme (s : List Char) : List Char :=
  if (s.map Char.toLower).take 8 = "https://".toList then s.drop 8
  else if (s.map Char.toLower).take 7 = "http://".toList then s.drop 7
  else s

/-- `replace(/\/$/, '')`: one trailing slash removed. -/
def dropTrailSlash (s : List Char) : List Char :=
  if s.getLast? = some '/' then s.dropLast else s

/-- `sanitizeUrl(raw)` from src/web-server-native.js (the `typeof` guard is
absorbed into the argument type): trim; reject empty and over-2048; strip one
scheme and one trailing slash; reject empty / space / angle-bracket results and
results with no ASCII alphanumeric. -/
def sanitizeUrl (raw : List Char) : Option (List Char) :=
  let c := trimChars raw
  if c = [] then none
  else if 2048 < c.length then none
  else
    let cl := dropTrailSlash (stripScheme c)
    if cl.isEmpty || cl.contains ' ' || cl.contains '<' || cl.contains '>' then none
    else if !(cl.any Char.isAlphanum) then none
    else some cl

/-- `cleanUrl(raw)` from src/discord-bot.js: its body is textually identical to
`sanitizeUrl` (minus the `typeof` guard, which the argument type absorbs). -/
def cleanUrl : List Char → Option (List Char) := sanitizeUrl

/-- Outcome of the pre-pool phase of a streaming check request. -/
inductive GateOutcome where
  | rejected
  | notReady
  | rateLimited
  | proceed (command : List Char)
deriving DecidableEq

/-- The legacy `GET /api/check-stream` handler (src/web-server.js) before any
pool interaction: `req.query.url` is only tested for JS-falsiness (`!url`,
i.e. absent or empty); then the readiness and rate-limit checks; then the
handler proceeds to `pool.acquire` and sends `/check all ${url}` with the raw,
un-normalized URL. -/
def legacyCheckStreamGate (url : Option (List Char)) (anyReady rlAllowed : Bool) :
    GateOutcome :=
  match url with
  | none => .rejected
  | some u =>
    if u = [] then .rejected
    else if !anyReady then .notReady
    else if !rlAllowed then .rateLimited
    else .proceed ("/check all ".toList ++ u)

/-- The native `GET /api/check-stream` handler (src/web-server-native.js)
before any checking: `sanitizeUrl` first (400 on `null`), then the rate
limiter, then the check proceeds on the sanitized URL. -/
def nativeCheckStreamGate (raw : List Char) (rlAllowed : Bool) : GateOutcome :=
  match sanitizeUrl raw with
  | none => .rejected
  | some u => if !rlAllowed then .rateLimited else .proceed u

/- ===================================================================
   Part 4: the two reply observers (src/discord-automation.js)
   =================================================================== -/

/-- One rendered message, with the author signals the observers read from the
DOM: the `data-author-id` attribute, the bot-tag marker, and whether the
rendered HTML contains the target bot id (`avatarMatch`). -/
structure Msg where
  authorId : Option (List Char)
  hasBotTag : Bool
  htmlHasBotId : Bool
  text : List Char
  embeds : List (List Char)
deriving DecidableEq

/-- `authorId === botId || avatarMatch || (hasBotTag && !authorId)`. -/
def isFromBot (botId : List Char) (m : Msg) : Bool :=
  m.authorId = some botId || m.htmlHasBotId || (m.hasBotTag && m.authorId = none)

/-- Scan message indices `length-1, …, lo` (newest first) for the first
bot-authored message. -/
def scanNewestFrom (botId : List Char) (msgs : List Msg) (lo : Nat) : Option Msg :=
  ((msgs.drop lo).reverse).find? (isFromBot botId)

/-- The initial search of `waitForBotReply`: `if (msgs.length <= snapshot.count)
return null` and then `for (let i = msgs.length - 1; i >= snapshot.count; i--)` —
only messages strictly newer than the baseline are considered. -/
def findReplyWait (botId : List Char) (msgs : List Msg) (baseline : Nat) : Option Msg :=
  if msgs.length ≤ baseline then none
  else scanNewestFrom botId msgs baseline

/-- The `readBot` helper of `sendAndStreamReply`:
`for (let i = msgs.length - 1; i >= Math.max(0, snapshot.count - 1); i--)` —
the scan also covers index `baseline - 1`, the newest message that already
existed before the command was sent. -/
def readBotMsg (botId : List Char) (msgs : List Msg) (baseline : Nat) : Option Msg :=
  scanNewestFrom botId msgs (baseline - 1)

/- ===================================================================
   Part 5: a backtracking regex engine for the parser's patterns
   =================================================================== -/

/-- Regular expressions as the parser's JavaScript patterns use them:
character classes, concatenation, alternation, greedy and lazy star, and
numbered capture groups. -/
inductive RE where
  | eps : RE
  | cls (p : Char → Bool) : RE
  | cat (a b : RE) : RE
  | alt (a b : RE) : RE
  | starG (a : RE) : RE
  | starL (a : RE) : RE
  | grp (idx : Nat) (a : RE) : RE

/-- Captured groups: group index paired with the matched characters; the most
recent capture of a group sits first. -/
abbrev Caps := List (Nat × List Char)

/-- Backtracking matcher in continuation style, following the JavaScript
engine's priority order (alternatives left first, greedy star longest first,
lazy star shortest first).  `fuel` bounds the recursion depth; each star
iteration consumes at least one input character (the progress check) and each
regex node one fuel unit, so `2 * length + 128` is ample for the modelled
patterns, whose nesting depth is far below 128. -/
def reMatch {A : Type} : Nat → RE → List Char → Caps →
    (List Char → Caps → Option A) → Option A
  | 0, _, _, _, _ => none
  | f + 1, r, s, caps, k =>
    match r with
    | .eps => k s caps
    | .cls p =>
      match s with
      | [] => none
      | c :: rest => if p c then k rest caps else none
    | .cat a b => reMatch f a s caps (fun s1 c1 => reMatch f b s1 c1 k)
    | .alt a b => (reMatch f a s caps k) <|> (reMatch f b s caps k)
    | .grp n a =>
      reMatch f a s caps (fun s1 c1 => k s1 ((n, s.take (s.length - s1.length)) :: c1))
    | .starG a =>
      (reMatch f a s caps (fun s1 c1 =>
        if s1.length < s.length then reMatch f (.starG a) s1 c1 k else none)) <|> k s caps
    | .starL a =>
      (k s caps) <|> (reMatch f a s caps (fun s1 c1 =>
        if s1.length < s.length then reMatch f (.starL a) s1 c1 k else none))

/-- Ample recursion fuel for a match attempt on `s` (see `reMatch`). -/
def reFuel (s : List Char) : Nat := 2 * s.length + 128

/-- Whole-string match (an `^…$`-anchored pattern), returning the captures. -/
def reFull (r : RE) (s : List Char) : Option Caps :=
  reMatch (reFuel s) r s [] (fun rest caps => if rest = [] then some caps else none)

/-- First-priority match at the start of `s`, returning the unconsumed rest. -/
def reConsume (r : RE) (s : List Char) : Option (List Char) :=
  reMatch (reFuel s) r s [] (fun rest _ => some rest)

/-- Leftmost match: the text before the match and the text after it. -/
def reFindFirst (r : RE) : List Char → Option (List Char × List Char)
  | [] => (reConsume r []).map (fun rest => (([] : List Char), rest))
  | c :: t =>
    match reConsume r (c :: t) with
    | some rest => some ([], rest)
    | none => (reFindFirst r t).map (fun pr => (c :: pr.1, pr.2))

/-- `String.prototype.split(re)[0]`: the text before the first match (the whole
string when there is none). -/
def splitHead (r : RE) (s : List Char) : List Char :=
  match reFindFirst r s with
  | none => s
  | some (pre, _) => pre

/-- Full `String.prototype.split(re)` for patterns that always consume at least
one character. -/
def splitAll (r : RE) (fuel : Nat) (s : List Char) : List (List Char) :=
  match fuel with
  | 0 => [s]
  | f + 1 =>
    match reFindFirst r s with
    | none => [s]
    | some (pre, post) =>
      if post.length < s.length then pre :: splitAll r f post else [s]

/-- `replace(re$, '')` for an end-anchored pattern: drop the suffix starting at
the leftmost position from which the pattern matches through to the end. -/
def stripSuffixMatch (r : RE) (s : List Char) : List Char :=
  match (List.range (s.length + 1)).find? (fun i => (reFull r (s.drop i)).isSome) with
  | some i => s.take i
  | none => s

def capGet (caps : Caps) (n : Nat) : Option (List Char) :=
  (caps.find? (fun pr => pr.1 = n)).map (fun pr => pr.2)

/-- JS `.` (no dotAll flag): anything but a line terminator. -/
def isDotChar (c : Char) : Bool :=
  !(c = '\n' || c = '\r' || c = Char.ofNat 0x2028 || c = Char.ofNat 0x2029)

def wsC : RE := .cls isJsSpace
def anyC : RE := .cls isDotChar
def digitC : RE := .cls Char.isDigit
def litC (c : Char) : RE := .cls (fun x => x = c)
def litStr (s : List Char) : RE := s.foldr (fun c r => .cat (litC c) r) .eps
def plusG (a : RE) : RE := .cat a (.starG a)
def plusL (a : RE) : RE := .cat a (.starL a)
def nonWordC : RE := .cls (fun c => !isJsWordChar c)

/-- `\s*\(took\s+(\d+)ms\)` with the digits in group `dgrp`, the shared tail of
the result-line patterns. -/
def tookTail (dgrp : Nat) : RE :=
  .cat (.starG wsC)
    (.cat (litStr "(took".toList)
      (.cat (plusG wsC) (.cat (.grp dgrp (plusG digitC)) (litStr "ms)".toList))))

/-- `\s+-\s+` -/
def dashSep : RE := .cat (plusG wsC) (.cat (litC '-') (plusG wsC))

/-- `/^(.+?)\s+-\s+(.+?)\s*\(took\s+(\d+)ms\)$/` — the two-line result pattern. -/
def resultLineRE : RE :=
  .cat (.grp 1 (plusL anyC)) (.cat dashSep (.cat (.grp 2 (plusL anyC)) (tookTail 3)))

/-- `/^[^\w]*(.+?)\s*[:—]\s+(.+?)\s+-\s+(.+?)\s*\(took\s+(\d+)ms\)$/` — the
compact one-line pattern. -/
def compactLineRE : RE :=
  .cat (.starG nonWordC)
    (.cat (.grp 1 (plusL anyC))
      (.cat (.starG wsC)
        (.cat (.cls (fun c => c = ':' || c = '—'))
          (.cat (plusG wsC)
            (.cat (.grp 2 (plusL anyC))
              (.cat dashSep (.cat (.grp 3 (plusL anyC)) (tookTail 4))))))))

/-- `/^[^\w]*(.+?)\s+-\s+(.+?)\s*\(took\s+(\d+)ms\)$/` — the broad fallback
pattern. -/
def broadLineRE : RE := .cat (.starG nonWordC) resultLineRE

/-- `/\(took\s+(\d+)ms\)/` — unanchored timing search. -/
def tookSearchRE : RE :=
  .cat (litStr "(took".toList)
    (.cat (plusG wsC) (.cat (.grp 1 (plusG digitC)) (litStr "ms)".toList)))

/-- Leftmost unanchored match of `r` in `s`, returning its captures. -/
def reSearch (r : RE) : List Char → Option Caps
  | [] => reMatch (reFuel []) r [] [] (fun _ caps => some caps)
  | c :: t =>
    (reMatch (reFuel (c :: t)) r (c :: t) [] (fun _ caps => some caps)) <|> reSearch r t

/-- `/\s*\(took\s+\d+ms\)$/` without captures, for the `replace` in the
fallback sweep. -/
def tookSuffixRE : RE :=
  .cat (.starG wsC)
    (.cat (litStr "(took".toList)
      (.cat (plusG wsC) (.cat (plusG digitC) (litStr "ms)".toList))))

/-- `/\s+-\s+/` as used by `split`. -/
def dashSplitRE : RE := dashSep

/-- `/\s*[-:—]\s/` as used by the fallback's `split(...)[0]`. -/
def sepSplitRE : RE :=
  .cat (.starG wsC) (.cat (.cls (fun c => c = '-' || c = ':' || c = '—')) wsC)

/- ===================================================================
   Part 6: the response parser (src/response-parser.js)
   =================================================================== -/

/-- Executable substring test (`String.prototype.includes`). -/
def containsSub (needle : List Char) (hay : List Char) : Bool :=
  match hay with
  | [] => needle.isEmpty
  | _ :: t => needle.isPrefixOf hay || containsSub needle t

/-- The `status` strings of a platform result. -/
inductive PStatus where
  | blocked
  | unblocked
  | loading
  | error
  | unknown
deriving DecidableEq

/-- One per-platform result object `{ name, category, status, detail, ms, icon }`. -/
structure Platform where
  name : List Char
  category : List Char
  status : PStatus
  detail : List Char
  ms : Option Nat
  icon : List Char
deriving DecidableEq

/-- `parseInt(digits, 10)` on an all-digit capture. -/
def parseNatDigits (s : List Char) : Nat :=
  s.foldl (fun n c => n * 10 + (c.toNat - '0'.toNat)) 0

def lowerOf (s : List Char) : List Char := s.map Char.toLower

/-- `/all checkers use the default settings/i.test(line)` -/
def noteLineP (s : List Char) : Bool :=
  containsSub ("all checkers use the default settings".toList) (lowerOf s)

/-- `/^results for /i.test(line)` -/
def headerLineP (s : List Char) : Bool :=
  ("results for ".toList).isPrefixOf (lowerOf s)

/-- `/loading|⏳/i.test(line)` -/
def loadingLineP (s : List Char) : Bool :=
  containsSub ("loading".toList) (lowerOf s) || containsSub ("⏳".toList) s

/-- `/error|⚠️|report to/i.test(line)` -/
def errorLineP (s : List Char) : Bool :=
  containsSub ("error".toList) (lowerOf s) || containsSub ("⚠️".toList) s ||
  containsSub ("report to".toList) (lowerOf s)

/-- `replace(/^[^\w]*/, '')` -/
def stripLeadingNonWord (s : List Char) : List Char :=
  s.dropWhile (fun c => !isJsWordChar c)

/-- Status classification from the detail text: `unblocked` before `blocked`,
case-insensitively, else `unknown`. -/
def statusOfDetail (detail : List Char) : PStatus :=
  if containsSub ("unblocked".toList) (lowerOf detail) then .unblocked
  else if containsSub ("blocked".toList) (lowerOf detail) then .blocked
  else .unknown

/-- `String.prototype.split('\n')`. -/
def splitOnNl : List Char → List (List Char)
  | [] => [[]]
  | c :: rest =>
    if c = '\n' then [] :: splitOnNl rest
    else
      match splitOnNl rest with
      | [] => [[c]]
      | l :: ls => (c :: l) :: ls

def hasTook (s : List Char) : Bool := containsSub ("(took".toList) s
def hasDashSep (s : List Char) : Bool := containsSub (" - ".toList) s

/-- `!line.includes(' - ') && !line.includes('(took') && !notePattern.test(line)
&& !headerPattern.test(line)` -/
def isNameLine (line : List Char) : Bool :=
  !hasDashSep line && !hasTook line && !noteLineP line && !headerLineP line

def isResultLine (next : List Char) : Bool := hasDashSep next && hasTook next
def isLoadingNextLine (next : List Char) : Bool := loadingLineP next && !hasTook next
def isErrorNextLine (next : List Char) : Bool := errorLineP next && !hasTook next

/-- `tryCompactLine(line, platforms, seen, …)`. -/
def tryCompactLine (line : List Char) (platforms : List Platform)
    (seen : List (List Char)) : List Platform × List (List Char) :=
  match reFull compactLineRE line with
  | none => (platforms, seen)
  | some caps =>
    let name := trimChars (stripLeadingNonWord ((capGet caps 1).getD []))
    if name ∈ seen then (platforms, seen)
    else
      let category := trimChars ((capGet caps 2).getD [])
      let detail := trimChars ((capGet caps 3).getD [])
      let ms := parseNatDigits ((capGet caps 4).getD [])
      (platforms ++ [{ name := name, category := category, status := statusOfDetail detail,
                       detail := detail, ms := some ms, icon := [] }],
       seen ++ [name])

/-- The platform pushed for a loading marker line. -/
def loadingPlatform (name : List Char) : Platform :=
  { name := name, category := "Loading...".toList, status := .loading,
    detail := "Loading...".toList, ms := none, icon := "⏳".toList }

/-- The platform pushed for an error marker line. -/
def errorPlatform (name next : List Char) : Platform :=
  { name := name, category := trimChars next, status := .error,
    detail := trimChars next, ms := none, icon := "⚠️".toList }

/-- The platform pushed from a matched two-line result. -/
def resultPlatform (name : List Char) (caps : Caps) : Platform :=
  let category := trimChars ((capGet caps 1).getD [])
  let detail := trimChars ((capGet caps 2).getD [])
  let ms := parseNatDigits ((capGet caps 3).getD [])
  { name := name, category := category, status := statusOfDetail detail,
    detail := detail, ms := some ms, icon := [] }

/-- The main scan loop of `parseBotResponse` over the trimmed, non-blank lines,
carrying `(platforms, seen, note)`.  Index arithmetic (`i++` skips after a
consumed pair) becomes recursion on the remaining lines; the fuel argument
(one unit per loop iteration, so `length + 1` is ample) keeps the recursion
structural. -/
def scanLines : Nat → List (List Char) →
    List Platform × List (List Char) × Option (List Char) →
    List Platform × List (List Char) × Option (List Char)
  | 0, _, st => st
  | _ + 1, [], st => st
  | _ + 1, [line], (platforms, seen, note) =>
    if noteLineP line then (platforms, seen, some (trimChars (stripLeadingNonWord line)))
    else if headerLineP line then (platforms, seen, note)
    else
      let pr := tryCompactLine line platforms seen
      (pr.1, pr.2, note)
  | f + 1, line :: next :: rest2, (platforms, seen, note) =>
    if noteLineP line then
      scanLines f (next :: rest2) (platforms, seen, some (trimChars (stripLeadingNonWord line)))
    else if headerLineP line then
      scanLines f (next :: rest2) (platforms, seen, note)
    else if isNameLine line &&
        (isResultLine next || isLoadingNextLine next || isErrorNextLine next) then
      let name := trimChars line
      if name ∈ seen then scanLines f rest2 (platforms, seen, note)
      else
        let seen2 := seen ++ [name]
        if isLoadingNextLine next then
          scanLines f rest2 (platforms ++ [loadingPlatform name], seen2, note)
        else if isErrorNextLine next then
          scanLines f rest2 (platforms ++ [errorPlatform name next], seen2, note)
        else
          match reFull resultLineRE next with
          | some caps =>
            scanLines f rest2 (platforms ++ [resultPlatform name caps], seen2, note)
          | none => scanLines f rest2 (platforms, seen2, note)
    else
      let pr := tryCompactLine line platforms seen
      scanLines f (next :: rest2) (pr.1, pr.2, note)

/-- One line of the fallback sweep: compact retry, then the broad
split-on-dashes extraction, respecting the shared `seen` set. -/
def fallbackLine (st : List Platform × List (List Char)) (line : List Char) :
    List Platform × List (List Char) :=
  if !hasTook line then st
  else if noteLineP line || headerLineP line then st
  else
    let pr := tryCompactLine line st.1 st.2
    let firstSeg := trimChars (splitHead sepSplitRE line)
    if firstSeg ∈ pr.2 then pr
    else
      match reFull broadLineRE line with
      | none => pr
      | some _ =>
        let beforeTook := stripSuffixMatch tookSuffixRE line
        let dashParts := splitAll dashSplitRE (line.length + 1) beforeTook
        if 3 ≤ dashParts.length then
          let name := trimChars (stripLeadingNonWord (dashParts.headD []))
          if name ∈ pr.2 then pr
          else
            let category := trimChars ((dashParts.drop 1).headD [])
            let detail := trimChars (List.intercalate " - ".toList (dashParts.drop 2))
            let ms :=
              match reSearch tookSearchRE line with
              | some caps => (capGet caps 1).map parseNatDigits
              | none => none
            (pr.1 ++ [{ name := name, category := category, status := statusOfDetail detail,
                        detail := detail, ms := ms, icon := [] }],
             pr.2 ++ [name])
        else pr

/-- The fallback sweep over all lines, entered when the structured scan found
fewer than 5 non-loading results. -/
def fallbackSweep (allLines : List (List Char))
    (st : List Platform × List (List Char)) : List Platform × List (List Char) :=
  allLines.foldl fallbackLine st

/-- The raw reply handed to the parser: `reply.text` and `reply.embeds`. -/
structure Reply where
  text : List Char
  embeds : List (List Char)
deriving DecidableEq

/-- The parser's return object `{ platforms, note, raw }`. -/
structure ParsedResponse where
  platforms : List Platform
  note : Option (List Char)
  raw : List Char
deriving DecidableEq

/-- `parseBotResponse(reply)`. -/
def parseBotResponse (reply : Reply) : ParsedResponse :=
  let raw := List.intercalate ['\n'] (reply.text :: reply.embeds)
  let allLines := ((splitOnNl raw).map trimChars).filter (fun l => l ≠ [])
  let st := scanLines (allLines.length + 1) allLines ([], [], none)
  let final :=
    if (st.1.filter (fun p => p.status ≠ PStatus.loading)).length < 5 then
      fallbackSweep allLines (st.1, st.2.1)
    else (st.1, st.2.1)
  { platforms := final.1, note := st.2.2, raw := raw }

/- ===================================================================
   Part 7: the streaming stability loop (sendAndStreamReply) and the
   orchestrator's completeness predicate (legacy /api/check-stream)
   =================================================================== -/

/-- What one `readBot()` poll yields: the tracked reply's text and embeds. -/
structure BotObs where
  text : List Char
  embeds : List (List Char)
deriving DecidableEq

/-- `current.text + '\n' + current.embeds.join('\n')` — the change-detection
key of the streaming loop. -/
def obsFull (o : BotObs) : List Char :=
  o.text ++ '\n' :: (List.intercalate ['\n'] o.embeds)

/-- The loop state of `sendAndStreamReply`: `lastText`, `unchangedCount`,
`foundBot`, and `contentComplete` (initialized to `true`: “assume complete
unless callback says otherwise”). -/
structure StreamLoopState where
  lastText : List Char
  unchanged : Nat
  complete : Bool
  foundBot : Bool
deriving DecidableEq

def streamInit : StreamLoopState :=
  { lastText := [], unchanged := 0, complete := true, foundBot := false }

/-- The state update for one observed (non-`null`) poll: on a change
(`currentFull !== lastText`) the callback runs and the unchanged counter
resets; otherwise the counter increments. -/
def streamUpd (onUpdate : BotObs → Bool) (s : StreamLoopState) (o : BotObs) : StreamLoopState :=
  if obsFull o = s.lastText then
    { s with foundBot := true, unchanged := s.unchanged + 1 }
  else
    { s with foundBot := true, lastText := obsFull o, unchanged := 0, complete := onUpdate o }

/-- The polling loop of `sendAndStreamReply` over a finite synthetic poll
sequence (the hard timeout is the end of the sequence).  A `null` read is
skipped (`continue`); after an observed poll the loop returns early exactly
when `contentComplete && unchangedCount >= 5`.  `Sum.inr` carries the exit
state and the returned observation; `Sum.inl` is the timeout path (the code
then falls through to the best-partial return). -/
def runStream (onUpdate : BotObs → Bool) :
    List (Option BotObs) → StreamLoopState → StreamLoopState ⊕ (StreamLoopState × BotObs)
  | [], s => .inl s
  | none :: rest, s => runStream onUpdate rest s
  | some o :: rest, s =>
    if (streamUpd onUpdate s o).complete ∧ 5 ≤ (streamUpd onUpdate s o).unchanged then
      .inr (streamUpd onUpdate s o, o)
    else runStream onUpdate rest (streamUpd onUpdate s o)

/-- The completeness predicate the legacy `/api/check-stream` handler passes to
the streaming observer: no `loading` result, the disclaimer note seen, and at
least 10 finished results. -/
def looksComplete (platforms : List Platform) (sawNote : Bool) : Bool :=
  !(platforms.any (fun p => p.status == PStatus.loading)) && sawNote &&
  decide (10 ≤ (platforms.filter (fun p => p.status ≠ PStatus.loading)).length)

/- ===================================================================
   Part 8: concrete states and inputs used by the theorems
   =================================================================== -/

/-- A pool whose only instance never became ready (both `initAll` launch
attempts failed). -/
def noReadyPool : CheckerPool :=
  { instances := [{ id := 0, busy := false, ready := false, error := some 1,
                    consecutiveFailures := 0 }],
    waiters := [], recovering := [] }

/-- A pool whose instance is idle and ready with 2 recorded consecutive
failures. -/
def cfTwoPool : CheckerPool :=
  { instances := [{ id := 0, busy := false, ready := true, error := none,
                    consecutiveFailures := 2 }],
    waiters := [], recovering := [] }

/-- The instance stored in `cfTwoPool`. -/
def cfTwoInst : PoolInst :=
  { id := 0, busy := false, ready := true, error := none, consecutiveFailures := 2 }

/-- Reachable state demonstrating failure-triggered recovery on a busy
instance: requests 1 and 2 each acquire, release idle, and record a failure;
request 3 acquires, request 4 queues; request 3's release hands the slot to
request 4 (the instance stays busy).  The pool now holds a busy instance with
2 consecutive failures and an empty recovering set. -/
def busyRecoveryPool : CheckerPool :=
  CheckerPool.run initPool1
    [.acquire 1, .release 0, .failure 0,
     .acquire 2, .release 0, .failure 0,
     .acquire 3, .acquire 4, .release 0]

/-- Continuation of `busyRecoveryPool`: request 4's failure (the 3rd) starts
recovery, the recovery attempt itself fails (counter left at 3), and the last
holder releases the idle slot. -/
def fourthFailurePool : CheckerPool :=
  CheckerPool.run initPool1
    [.acquire 1, .release 0, .failure 0,
     .acquire 2, .release 0, .failure 0,
     .acquire 3, .acquire 4, .release 0, .failure 0,
     .recoverDone 0 false, .release 0]

/-- A waiting pool: the single ready instance is busy and one waiter is
queued. -/
def queuedPool : CheckerPool :=
  CheckerPool.run initPool1 [.acquire 1, .acquire 2]

/-- A bot-authored message that was already rendered before the command was
sent (it is the only message, and the baseline count is 1). -/
def preexistingBotMsg : Msg :=
  { authorId := some ("42".toList), hasBotTag := false, htmlHasBotId := true,
    text := "old reply from before the command".toList, embeds := [] }

/-- The spec's parser example reply. -/
def c8reply : Reply :=
  { text := ("FortiGuard\nMalware - Likely Blocked (took 212ms)\n...\nAll checkers use the default settings.").toList,
    embeds := [] }

/-- The expected single platform result for `c8reply`. -/
def c8platform : Platform :=
  { name := "FortiGuard".toList, category := "Malware".toList, status := PStatus.blocked,
    detail := "Likely Blocked".toList, ms := some 212, icon := [] }

/-- A synthetic observation for the streaming-loop theorems. -/
def obsA : BotObs := { text := "hello".toList, embeds := [] }

/-- Six polls all returning `obsA`. -/
def pollsA : List (Option BotObs) := List.replicate 6 (some obsA)

/-- The loop state at the early stability exit on `pollsA` with an
always-true callback. -/
def seA : StreamLoopState :=
  { lastText := obsFull obsA, unchanged := 5, complete := true, foundBot := true }

/- ===================================================================
   Part 9: helper lemmas
   =================================================================== -/

theorem markFirstFree_of_all_busy (l : List PoolInst)
    (h : ∀ i ∈ l, i.ready = true → i.busy = true) : markFirstFree l = (l, none) := by
  induction l with
  | nil => rfl
  | cons i rest ih =>
    have hi : (i.ready && !i.busy) = false := by
      cases hr : i.ready with
      | false => simp
      | true => simp [h i (by simp) hr]
    have hrest : markFirstFree rest = (rest, none) :=
      ih (fun j hj => h j (List.mem_cons_of_mem _ hj))
    simp [markFirstFree, hi, hrest]

theorem find?_updateFirstInst (l : List PoolInst) (iid : Nat) (f : PoolInst → PoolInst)
    (hf : ∀ i, (f i).id = i.id) :
    (updateFirstInst l iid f).find? (fun i => i.id = iid) =
      (l.find? (fun i => i.id = iid)).map f := by
  induction l with
  | nil => rfl
  | cons i rest ih =>
    by_cases hid : i.id = iid
    · simp [updateFirstInst, hid, List.find?, hf]
    · simp [updateFirstInst, hid, List.find?, ih]

theorem filter_window_twice (w now now2 : Int) (hits : List Int) (hle : now ≤ now2) :
    (hits.filter (fun t => now - w < t)).filter (fun t => now2 - w < t) =
      hits.filter (fun t => now2 - w < t) := by
  induction hits with
  | nil => rfl
  | cons a l ih =>
    by_cases h2 : now2 - w < a
    · have h1 : now - w < a := by omega
      simp [List.filter, h1, h2, ih]
    · by_cases h1 : now - w < a
      · simp [List.filter, h1, h2, ih]
      · simp [List.filter, h1, h2, ih]

theorem stripScheme_length_le (s : List Char) : (stripScheme s).length ≤ s.length := by
  unfold stripScheme
  split_ifs <;> simp

theorem dropTrailSlash_length_le (s : List Char) : (dropTrailSlash s).length ≤ s.length := by
  unfold dropTrailSlash
  split
  · simp [List.length_dropLast]
  · exact Nat.le_refl _

theorem obsFull_ne_nil (o : BotObs) : obsFull o ≠ [] := by
  unfold obsFull
  cases o.text <;> simp

/-- Loop invariant of the streaming stability loop: before any observation the
unchanged counter is zero, and after one the `contentComplete` flag is the
callback's verdict on the observation whose key is `lastText`. -/
def streamInv (onUpdate : BotObs → Bool) (s : StreamLoopState) : Prop :=
  (s.lastText = [] → s.unchanged = 0) ∧
  (s.lastText ≠ [] → ∃ o, obsFull o = s.lastText ∧ s.complete = onUpdate o)


theorem streamUpd_inv (onUpdate : BotObs → Bool) (s : StreamLoopState) (o : BotObs)
    (h : streamInv onUpdate s) : streamInv onUpdate (streamUpd onUpdate s o) := by
  unfold streamUpd
  by_cases heq : obsFull o = s.lastText
  · simp only [heq, if_pos rfl, if_true]
    refine ⟨?_, ?_⟩
    · intro hnil
      exact absurd (heq.trans hnil) (obsFull_ne_nil o)
    · intro hne
      exact h.2 hne
  · simp only [if_neg heq]
    refine ⟨?_, ?_⟩
    · intro hnil
      exact absurd hnil (obsFull_ne_nil o)
    · intro _
      exact ⟨o, rfl, rfl⟩

theorem runStream_inr_core (onUpdate : BotObs → Bool) (polls : List (Option BotObs)) :
    ∀ (s : StreamLoopState), streamInv onUpdate s →
      ∀ (se : StreamLoopState) (r : BotObs), runStream onUpdate polls s = .inr (se, r) →
        se.complete = true ∧ 5 ≤ se.unchanged ∧ ∃ o, onUpdate o = true := by
  induction polls with
  | nil =>
    intro s _ se r h
    simp [runStream] at h
  | cons c rest ih =>
    intro s hinv se r h
    cases c with
    | none => exact ih s hinv se r h
    | some o =>
      rw [runStream] at h
      by_cases hc : (streamUpd onUpdate s o).complete = true ∧ 5 ≤ (streamUpd onUpdate s o).unchanged
      · rw [if_pos (by exact ⟨hc.1, hc.2⟩)] at h
        have hse : streamUpd onUpdate s o = se ∧ o = r := by
          have := Sum.inr.inj h
          exact ⟨congrArg Prod.fst this, congrArg Prod.snd this⟩
        have hinv1 := streamUpd_inv onUpdate s o hinv
        refine ⟨hse.1 ▸ hc.1, hse.1 ▸ hc.2, ?_⟩
        -- the unchanged counter is positive, so lastText is a previously observed key
        have hpos : (streamUpd onUpdate s o).unchanged ≠ 0 := by omega
        have hne : (streamUpd onUpdate s o).lastText ≠ [] := by
          intro hnil
          exact hpos (hinv1.1 hnil)
        obtain ⟨o2, _, ho2⟩ := hinv1.2 hne
        exact ⟨o2, ho2 ▸ hc.1⟩
      · have hcb : ¬((streamUpd onUpdate s o).complete ∧ 5 ≤ (streamUpd onUpdate s o).unchanged) := by
          intro hcc
          exact hc ⟨hcc.1, hcc.2⟩
        rw [if_neg hcb] at h
        exact ih _ (streamUpd_inv onUpdate s o hinv) se r h

theorem runStream_never_exits_core (onUpdate : BotObs → Bool)
    (hfalse : ∀ o, onUpdate o = false) (polls : List (Option BotObs)) :
    ∀ (s : StreamLoopState), (s.complete = true → s.lastText = []) →
      ∃ se, runStream onUpdate polls s = .inl se := by
  induction polls with
  | nil => intro s _; exact ⟨s, rfl⟩
  | cons c rest ih =>
    intro s hinv
    cases c with
    | none => exact ih s hinv
    | some o =>
      rw [runStream]
      have hnc : ¬((streamUpd onUpdate s o).complete ∧ 5 ≤ (streamUpd onUpdate s o).unchanged) := by
        intro hcc
        unfold streamUpd at hcc
        by_cases heq : obsFull o = s.lastText
        · rw [if_pos heq] at hcc
        -- the flag survives only from a state whose lastText is empty
          have hsc : s.complete = true := hcc.1
          have : s.lastText = [] := hinv hsc
          exact obsFull_ne_nil o (heq.trans this)
        · rw [if_neg heq] at hcc
          have : onUpdate o = true := hcc.1
          rw [hfalse o] at this
          exact Bool.false_ne_true this
      rw [if_neg hnc]
      refine ih _ ?_
      intro hcomp
      exfalso
      unfold streamUpd at hcomp
      by_cases heq : obsFull o = s.lastText
      · rw [if_pos heq] at hcomp
        have : s.lastText = [] := hinv hcomp
        exact obsFull_ne_nil o (heq.trans this)
      · rw [if_neg heq] at hcomp
        rw [hfalse o] at hcomp
        exact Bool.false_ne_true hcomp

/- ===================================================================
   Part 10: the claims
   =================================================================== -/

/-- Claim C9: whenever the pool contains no ready instance, `allBusy`
quantifies over the empty list of ready instances and returns `true`, so the
legacy status endpoint reports the all-busy flag as `true` even though no scan
is in progress. -/
theorem allBusy_of_no_ready (p : CheckerPool) (h : ∀ i ∈ p.instances, i.ready = false) :
    legacyStatusBusy p = true := by
  unfold legacyStatusBusy CheckerPool.allBusy
  have hnil : p.instances.filter (fun i => i.ready) = [] := by
    rw [List.filter_eq_nil_iff]
    intro i hi
    simp [h i hi]
  rw [hnil]
  rfl

/-- Witness for C9: a pool whose single instance failed both launch attempts
reports `busy = true`. -/
theorem allBusy_of_no_ready_witness : legacyStatusBusy noReadyPool = true :=
  allBusy_of_no_ready noReadyPool (by decide)

/-- Claim C10: `sanitizeUrl` (and the identical `cleanUrl`) strips at most one
scheme and one trailing slash per call, hence is not idempotent:
`"http://http://example.com//"` is accepted as `"http://example.com/"`, which
still begins with `"http://"` and sanitizes further to `"example.com"`. -/
theorem sanitizeUrl_not_idempotent :
    sanitizeUrl ("http://http://example.com//".toList) = some ("http://example.com/".toList) ∧
    sanitizeUrl ("http://example.com/".toList) = some ("example.com".toList) ∧
    ("http://example.com/".toList ≠ "example.com".toList) ∧
    ("http://".toList).isPrefixOf ("http://example.com/".toList) = true ∧
    cleanUrl ("http://http://example.com//".toList) =
      sanitizeUrl ("http://http://example.com//".toList) := by
  refine ⟨by decide, by decide, by decide, by decide, rfl⟩


/-- Claim C8: the spec's example reply parses to exactly one platform —
FortiGuard, blocked, category Malware, 212 ms — plus the disclaimer note
ending in "default settings.". -/
theorem parse_fortiguard_example :
    (parseBotResponse c8reply).platforms = [c8platform] ∧
    (parseBotResponse c8reply).note = some ("All checkers use the default settings.".toList) ∧
    (("default settings.".toList).reverse.isPrefixOf
      ("All checkers use the default settings.".toList).reverse) = true ∧
    (parseBotResponse c8reply).platforms.length = 1 := by
  refine ⟨by decide, by decide, by decide, by decide⟩

/-- Claim C7: when `release` runs with a non-empty waiter queue, the instance
list (in particular the busy flag) is untouched, the slot goes to the head
waiter and the queue loses exactly that head; the busy flag is cleared only
when the queue is empty; and since the instance stays busy, a fresh `acquire`
on an otherwise-saturated pool is queued behind the remaining waiters rather
than obtaining the slot. -/
theorem release_handsoff_fifo (p : CheckerPool) (iid : Nat) :
    (∀ w rest, p.waiters = w :: rest →
      ((p.releaseInstance iid).1.instances = p.instances ∧
       (p.releaseInstance iid).2 = some w ∧
       (p.releaseInstance iid).1.waiters = rest ∧
       ∀ w2, (∀ i ∈ p.instances, i.ready = true → i.busy = true) →
         (((p.releaseInstance iid).1.acquire w2).2 = none ∧
          ((p.releaseInstance iid).1.acquire w2).1.waiters = rest ++ [w2]))) ∧
    (p.waiters = [] →
      ((p.releaseInstance iid).1.instances =
         updateFirstInst p.instances iid (fun i => { i with busy := false }) ∧
       (p.releaseInstance iid).2 = none)) := by
  constructor
  · intro w rest hw
    have hrel : p.releaseInstance iid = ({ p with waiters := rest }, some w) := by
      unfold CheckerPool.releaseInstance
      rw [hw]
    refine ⟨by rw [hrel], by rw [hrel], by rw [hrel], ?_⟩
    intro w2 hbusy
    have hmf : markFirstFree p.instances = (p.instances, none) :=
      markFirstFree_of_all_busy _ hbusy
    have hacq : ({ p with waiters := rest } : CheckerPool).acquire w2 =
        ({ p with waiters := rest ++ [w2] }, none) := by
      unfold CheckerPool.acquire
      rw [show ({ p with waiters := rest } : CheckerPool).instances = p.instances from rfl, hmf]
    rw [hrel]
    exact ⟨by rw [hacq], by rw [hacq]⟩
  · intro hw
    have hrel : p.releaseInstance iid =
        ({ p with instances := (updateFirstInst p.instances iid
            (fun i => { i with busy := false })) }, none) := by
      unfold CheckerPool.releaseInstance
      rw [hw]
    exact ⟨by rw [hrel], by rw [hrel]⟩

/-- Witness for C7 on the one-instance pool with a queued waiter: the head
waiter (tag 2) receives the slot, the instance list is unchanged, and a fresh
`acquire` (tag 7) is queued behind. -/
theorem release_handsoff_fifo_witness :
    (queuedPool.releaseInstance 0).1.instances = queuedPool.instances ∧
    (queuedPool.releaseInstance 0).2 = some 2 ∧
    (queuedPool.releaseInstance 0).1.waiters = [] ∧
    (((queuedPool.releaseInstance 0).1.acquire 7).2 = none ∧
     ((queuedPool.releaseInstance 0).1.acquire 7).1.waiters = [] ++ [7]) := by
  have h := (release_handsoff_fifo queuedPool 0).1 2 [] (by decide)
  exact ⟨h.1, h.2.1, h.2.2.1, h.2.2.2 7 (by decide)⟩

/-- Counterexample to Claim C1: in the reachable state `busyRecoveryPool`
(three failing requests, the third releasing its slot directly to a queued
fourth request, so the instance stays busy), the next `recordFailure` — the
3rd consecutive failure — starts `recoverInstance` while the instance's busy
flag is `true`, i.e. while it is serving the handed-off request. -/
theorem recovery_starts_on_busy_session :
    busyRecoveryPool.instances.map (fun i => i.busy) = [true] ∧
    busyRecoveryPool.recovering = [] ∧
    (busyRecoveryPool.recordFailure 0).2 = true ∧
    (busyRecoveryPool.recordFailure 0).1.instances.map (fun i => i.busy) = [true] ∧
    0 ∈ (busyRecoveryPool.recordFailure 0).1.recovering := by
  refine ⟨by decide, by decide, by decide, by decide, by decide⟩

/-- Claim C1 (amended): `recoverInstance` proceeds only when the id is not
already in the recovering set; the idle requirement holds only on the
`healthCheck` path (which skips busy instances), not on the `recordFailure`
path, which can start recovery on a busy Session. -/
theorem recoverInstance_guard (p : CheckerPool) (iid : Nat) :
    ((p.recordFailure iid).2 = true → iid ∉ p.recovering) ∧
    ((p.healthCheckFail iid).2 = true →
      iid ∉ p.recovering ∧
      ∃ i, p.instances.find? (fun j => j.id = iid) = some i ∧
        i.ready = true ∧ i.busy = false) := by
  constructor
  · intro h
    unfold CheckerPool.recordFailure at h
    cases hf : p.instances.find? (fun i => i.id = iid) with
    | none => rw [hf] at h; simp at h
    | some inst =>
      rw [hf] at h
      dsimp only at h
      by_cases hc : 3 ≤ inst.consecutiveFailures + 1 ∧ iid ∉ p.recovering
      · exact hc.2
      · rw [if_neg hc] at h; simp at h
  · intro h
    unfold CheckerPool.healthCheckFail at h
    cases hb : p.healthCheckEligible iid with
    | false => rw [hb] at h; simp at h
    | true =>
      unfold CheckerPool.healthCheckEligible at hb
      cases hf : p.instances.find? (fun i => i.id = iid) with
      | none => rw [hf] at hb; simp at hb
      | some i =>
        rw [hf] at hb
        simp only [Bool.and_eq_true, Bool.not_eq_true'] at hb
        refine ⟨?_, i, rfl, hb.1.1, ?_⟩
        · intro hmem
          have hcont : p.recovering.contains iid = true := List.elem_eq_true_of_mem hmem
          rw [hcont] at hb
          exact Bool.noConfusion hb.2
        · simpa using hb.1.2

/-- Witness for C1 (amended): the `recordFailure` head applies to
`busyRecoveryPool` (where the trigger fires) and the `healthCheck` head to the
freshly initialized idle pool. -/
theorem recoverInstance_guard_witness :
    (0 ∉ busyRecoveryPool.recovering) ∧
    (0 ∉ initPool1.recovering ∧
     ∃ i, initPool1.instances.find? (fun j => j.id = 0) = some i ∧
       i.ready = true ∧ i.busy = false) := by
  refine ⟨(recoverInstance_guard busyRecoveryPool 0).1 (by decide), ?_⟩
  exact (recoverInstance_guard initPool1 0).2 (by decide)

/-- Counterexample to Claim C5: after a failed recovery the counter is not
reset (it stays at 3), so the next recorded failure — the 4th consecutive one,
not the 3rd — triggers recovery again. -/
theorem recovery_triggers_on_fourth_failure :
    fourthFailurePool.instances.map (fun i => i.consecutiveFailures) = [3] ∧
    fourthFailurePool.recovering = [] ∧
    (fourthFailurePool.recordFailure 0).2 = true ∧
    (fourthFailurePool.recordFailure 0).1.instances.map
      (fun i => i.consecutiveFailures) = [4] := by
  refine ⟨by decide, by decide, by decide, by decide⟩

/-- Claim C5 (amended): `recordFailure` starts recovery exactly when the
incremented counter is at least 3 and the Session is not already recovering —
so on the 3rd consecutive failure from a clean state, never the 1st or 2nd,
and never while recovering, but also on the 4th and later after a failed
recovery left the counter at 3; one `recordSuccess` resets the counter to 0. -/
theorem recordFailure_trigger_iff (p : CheckerPool) (iid : Nat) (inst : PoolInst)
    (h : p.instances.find? (fun i => i.id = iid) = some inst) :
    ((p.recordFailure iid).2 = true ↔
      (3 ≤ inst.consecutiveFailures + 1 ∧ iid ∉ p.recovering)) ∧
    (p.recordSuccess iid).instances.find? (fun i => i.id = iid) =
      some { inst with consecutiveFailures := 0 } := by
  constructor
  · unfold CheckerPool.recordFailure
    rw [h]
    dsimp only
    by_cases hc : 3 ≤ inst.consecutiveFailures + 1 ∧ iid ∉ p.recovering
    · rw [if_pos hc]
      simpa using hc
    · rw [if_neg hc]
      simpa using hc
  · unfold CheckerPool.recordSuccess
    dsimp only
    rw [find?_updateFirstInst p.instances iid
      (fun i => { i with consecutiveFailures := 0 }) (fun i => rfl), h]
    rfl

/-- Witness for C5 (amended) on the idle pool with 2 recorded failures. -/
theorem recordFailure_trigger_iff_witness :
    (((cfTwoPool.recordFailure 0).2 = true ↔
       (3 ≤ cfTwoInst.consecutiveFailures + 1 ∧ (0 : Nat) ∉ cfTwoPool.recovering)) ∧
     (cfTwoPool.recordSuccess 0).instances.find? (fun i => i.id = 0) =
       some { cfTwoInst with consecutiveFailures := 0 }) :=
  recordFailure_trigger_iff cfTwoPool 0 cfTwoInst (by decide)

/-- Counterexample to Claim C2: with a 1-hit window and one in-window recorded
hit at time 100, a status request at time 100 takes the denied branch of
`check` (which records nothing) and then pops the client's genuine timestamp,
so the stored list changes from `[100]` to `[]` — and a follow-up check at
time 101, denied before the status call, is now allowed: the status call
changed the caller's remaining budget. -/
theorem status_check_pops_real_timestamp :
    statusHits 1 120000 [100] 100 = [] ∧
    ([100] : List Int) ≠ [] ∧
    (RateLimiter.check 1 120000 [100] 101).2.allowed = false ∧
    (RateLimiter.check 1 120000 (statusHits 1 120000 [100] 100) 101).2.allowed = true := by
  refine ⟨by decide, by decide, by decide, by decide⟩

/-- Claim C2 (amended): when the status call's `check` is allowed (the client
is under the limit), the pop removes exactly the timestamp the check pushed,
so the stored list becomes the expiry-filtered previous list and every later
check behaves exactly as if the status call had not happened; when the client
is at the limit, the pop instead removes the newest genuine hit (see the
counterexample). -/
theorem statusHits_allowed_frame (m : Nat) (w : Int) (hits : List Int) (now : Int)
    (h : (hits.filter (fun t => now - w < t)).length < m) :
    statusHits m w hits now = hits.filter (fun t => now - w < t) ∧
    ∀ now2, now ≤ now2 →
      RateLimiter.check m w (statusHits m w hits now) now2 =
        RateLimiter.check m w hits now2 := by
  have h1 : statusHits m w hits now = hits.filter (fun t => now - w < t) := by
    unfold statusHits RateLimiter.check RateLimiter.undo
    rw [if_neg (Nat.not_le.mpr h)]
    exact List.dropLast_concat ..
  refine ⟨h1, ?_⟩
  intro now2 hle
  rw [h1]
  unfold RateLimiter.check
  dsimp only
  rw [filter_window_twice w now now2 hits hle]

/-- Witness for C2 (amended): one in-window hit under a 2-hit limit. -/
theorem statusHits_allowed_frame_witness :
    statusHits 2 120000 [100] 100 = ([100] : List Int).filter (fun t => (100 : Int) - 120000 < t) ∧
    RateLimiter.check 2 120000 (statusHits 2 120000 [100] 100) 150 =
      RateLimiter.check 2 120000 [100] 150 := by
  have h := statusHits_allowed_frame 2 120000 [100] 100 (by decide)
  exact ⟨h.1, h.2 150 (by decide)⟩

/-- Counterexample to Claim C3: with a baseline of 1 and no new messages, the
streaming `readBot` scan (lower bound `baseline - 1`) selects the bot message
that was already rendered before the command was sent, while the one-shot wait
observer correctly returns nothing. -/
theorem readBot_selects_preexisting_message :
    readBotMsg ("42".toList) [preexistingBotMsg] 1 = some preexistingBotMsg ∧
    findReplyWait ("42".toList) [preexistingBotMsg] 1 = none := by
  refine ⟨by decide, by decide⟩

/-- Claim C3 (amended): the one-shot wait observer considers only messages
strictly newer than the baseline; the streaming observer scans one further
down, to index `baseline - 1`, so the newest message rendered before the
command was sent can be selected as the reply. -/
theorem observers_scan_from_baseline (botId : List Char) (msgs : List Msg) (baseline : Nat) :
    (∀ m, findReplyWait botId msgs baseline = some m → m ∈ msgs.drop baseline) ∧
    (∀ m, readBotMsg botId msgs baseline = some m → m ∈ msgs.drop (baseline - 1)) := by
  constructor
  · intro m hm
    unfold findReplyWait at hm
    by_cases hlen : msgs.length ≤ baseline
    · rw [if_pos hlen] at hm
      exact absurd hm (by simp)
    · rw [if_neg hlen] at hm
      unfold scanNewestFrom at hm
      exact (List.mem_reverse).1 (List.mem_of_find?_eq_some hm)
  · intro m hm
    unfold readBotMsg scanNewestFrom at hm
    exact (List.mem_reverse).1 (List.mem_of_find?_eq_some hm)

/-- Witness for C3 (amended): the selected reply lies in the scanned suffix in
both observers. -/
theorem observers_scan_from_baseline_witness :
    preexistingBotMsg ∈ ([preexistingBotMsg].drop 0) ∧
    preexistingBotMsg ∈ ([preexistingBotMsg].drop (1 - 1)) := by
  refine ⟨(observers_scan_from_baseline ("42".toList) [preexistingBotMsg] 0).1
    preexistingBotMsg (by decide), ?_⟩
  exact (observers_scan_from_baseline ("42".toList) [preexistingBotMsg] 1).2
    preexistingBotMsg (by decide)

/-- Counterexample to Claim C4: the legacy streaming endpoint performs no
normalization or character validation — a URL that `sanitizeUrl` rejects
(`"<script>"`) passes its gate and reaches pool acquisition inside the raw
`/check all …` command. -/
theorem legacy_stream_gate_accepts_invalid_url :
    legacyCheckStreamGate (some ("<script>".toList)) true true =
      GateOutcome.proceed ("/check all <script>".toList) ∧
    sanitizeUrl ("<script>".toList) = none := by
  refine ⟨by decide, by decide⟩

/-- Claim C4 (amended): the native streaming endpoint normalizes with
`sanitizeUrl` and rejects invalid URLs before any checking, and accepted URLs
satisfy all the validation bounds; the legacy pooled streaming endpoint only
rejects a missing or empty URL and forwards anything else, un-normalized, to
the pool. -/
theorem stream_gate_validation (raw u : List Char) (b : Bool) :
    (sanitizeUrl raw = none → nativeCheckStreamGate raw b = GateOutcome.rejected) ∧
    (sanitizeUrl raw = some u →
      (u ≠ [] ∧ u.length ≤ 2048 ∧ u.contains ' ' = false ∧ u.contains '<' = false ∧
       u.contains '>' = false ∧ u.any Char.isAlphanum = true)) ∧
    (u ≠ [] → legacyCheckStreamGate (some u) true true =
      GateOutcome.proceed ("/check all ".toList ++ u)) := by
  refine ⟨?_, ?_, ?_⟩
  · intro h
    unfold nativeCheckStreamGate
    rw [h]
  · intro h
    unfold sanitizeUrl at h
    by_cases h1 : trimChars raw = []
    · rw [if_pos h1] at h
      exact absurd h (by simp)
    · rw [if_neg h1] at h
      by_cases h2 : 2048 < (trimChars raw).length
      · rw [if_pos h2] at h
        exact absurd h (by simp)
      · rw [if_neg h2] at h
        dsimp only at h
        by_cases h3 : ((dropTrailSlash (stripScheme (trimChars raw))).isEmpty ||
            (dropTrailSlash (stripScheme (trimChars raw))).contains ' ' ||
            (dropTrailSlash (stripScheme (trimChars raw))).contains '<' ||
            (dropTrailSlash (stripScheme (trimChars raw))).contains '>') = true
        · rw [if_pos h3] at h
          exact absurd h (by simp)
        · rw [if_neg h3] at h
          by_cases h4 : (!((dropTrailSlash (stripScheme (trimChars raw))).any
              Char.isAlphanum)) = true
          · rw [if_pos h4] at h
            exact absurd h (by simp)
          · rw [if_neg h4] at h
            have hu : u = dropTrailSlash (stripScheme (trimChars raw)) :=
              (Option.some.inj h).symm
            rw [Bool.not_eq_true, Bool.or_eq_false_iff, Bool.or_eq_false_iff,
              Bool.or_eq_false_iff] at h3
            refine ⟨?_, ?_, ?_, ?_, ?_, ?_⟩
            · rw [hu]
              intro hnil
              have : (dropTrailSlash (stripScheme (trimChars raw))).isEmpty = true := by
                rw [hnil]; rfl
              rw [this] at h3
              exact Bool.noConfusion h3.1.1.1
            · rw [hu]
              calc (dropTrailSlash (stripScheme (trimChars raw))).length
                  ≤ (stripScheme (trimChars raw)).length := dropTrailSlash_length_le _
                _ ≤ (trimChars raw).length := stripScheme_length_le _
                _ ≤ 2048 := Nat.not_lt.mp h2
            · rw [hu]; exact h3.1.1.2
            · rw [hu]; exact h3.1.2
            · rw [hu]; exact h3.2
            · rw [hu]
              simpa using h4
  · intro hu
    simp [legacyCheckStreamGate, hu]

/-- Witness for C4 (amended): `" a b "` is rejected by the native gate;
`"http://example.com/"` sanitizes to `"example.com"` meeting every bound; the
legacy gate forwards `"<script>"` to the pool. -/
theorem stream_gate_validation_witness :
    nativeCheckStreamGate (" a b ".toList) true = GateOutcome.rejected ∧
    (("example.com".toList ≠ ([] : List Char)) ∧ ("example.com".toList).length ≤ 2048 ∧
      ("example.com".toList).contains ' ' = false ∧
      ("example.com".toList).contains '<' = false ∧
      ("example.com".toList).contains '>' = false ∧
      ("example.com".toList).any Char.isAlphanum = true) ∧
    legacyCheckStreamGate (some ("<b>".toList)) true true =
      GateOutcome.proceed ("/check all ".toList ++ "<b>".toList) := by
  refine ⟨(stream_gate_validation (" a b ".toList) ("x".toList) true).1 (by decide), ?_, ?_⟩
  · exact (stream_gate_validation ("http://example.com/".toList)
      ("example.com".toList) true).2.1 (by decide)
  · exact (stream_gate_validation ("z".toList) ("<b>".toList) true).2.2 (by decide)

/-- Claim C6: the streaming observer leaves before the hard timeout only in a
state where the completeness callback most recently returned `true` and the
reply was then seen unchanged for 5 consecutive observed polls; with a
callback that always returns `false` it never exits early and runs to the end
of the poll sequence.  The callback the legacy streaming handler passes is
`looksComplete`: no loading result, note seen, and at least 10 finished
results. -/
theorem stream_exit_discipline (onUpdate : BotObs → Bool) (polls : List (Option BotObs)) :
    (∀ se r, runStream onUpdate polls streamInit = .inr (se, r) →
      se.complete = true ∧ 5 ≤ se.unchanged ∧ ∃ o, onUpdate o = true) ∧
    ((∀ o, onUpdate o = false) → ∃ se, runStream onUpdate polls streamInit = .inl se) ∧
    (∀ ps sn, looksComplete ps sn = true ↔
      ((∀ pl ∈ ps, pl.status ≠ PStatus.loading) ∧ sn = true ∧
       10 ≤ (ps.filter (fun pl => pl.status ≠ PStatus.loading)).length)) := by
  refine ⟨?_, ?_, ?_⟩
  · intro se r h
    exact runStream_inr_core onUpdate polls streamInit
      ⟨fun _ => rfl, fun hne => absurd rfl hne⟩ se r h
  · intro hf
    exact runStream_never_exits_core onUpdate hf polls streamInit (fun _ => rfl)
  · intro ps sn
    unfold looksComplete
    simp [List.any_eq_true, and_assoc]

/-- Witness for C6: with an always-true callback, six identical polls exit
early in state `seA` (5 stable polls after the single change); with an
always-false callback the same polls run to the timeout. -/
theorem stream_exit_discipline_witness :
    (seA.complete = true ∧ 5 ≤ seA.unchanged ∧ ∃ o, (fun _ : BotObs => true) o = true) ∧
    (∃ se, runStream (fun _ : BotObs => false) pollsA streamInit = .inl se) := by
  refine ⟨(stream_exit_discipline (fun _ => true) pollsA).1 seA obsA (by decide), ?_⟩
  exact (stream_exit_discipline (fun _ => false) pollsA).2.1 (fun _ => rfl)
